import Mathlib

/-!
Verification development for the newsroom content pipeline.

The Story Store (src/lib/data/stories.ts), the Filter/Dedup Engine
(the FilterAgent handler), the Podcast Store (src/lib/data/podcast.ts) and
the PodcastEditor handler are shallowly embedded below.  The key-value
backend is modelled as explicit state; the external classifier and
generation calls are arguments standing for the outcome of the call.
-/

namespace Newsroom

/-- A JavaScript `Date`, abstracted to the granularity the store observes:
`day` is the calendar day (the `YYYY-MM-DD` part of `toISOString()`) and
`tod` the time within that day, so `toISOString().split("T")[0]` is `day`
and `getTime()` order is lexicographic on `(day, tod)`. -/
structure JsDate where
  day : Nat
  tod : Nat
deriving DecidableEq, Repr

/-- JS `<=` on `Date` (comparison of `getTime()`). -/
def JsDate.ble (a b : JsDate) : Bool :=
  Nat.blt a.day b.day || (a.day == b.day && Nat.ble a.tod b.tod)

/-- The `Story` shape of `StorySchema` (stories.ts:11): `date_published`,
`images`, `body`, `tags` and `edited` are optional in the schema. -/
structure Story where
  headline : String
  summary : String
  link : String
  published : Bool
  date_added : JsDate
  date_published : Option JsDate := none
  images : Option (List String) := none
  body : Option String := none
  source : String
  tags : Option (List String) := none
  edited : Option Bool := none
deriving DecidableEq, Repr

/-- A raw record as read back from the key-value backend before schema
validation: any field, including required ones, may be absent. -/
structure RawStory where
  headline : Option String := none
  summary : Option String := none
  link : Option String := none
  published : Option Bool := none
  date_added : Option JsDate := none
  date_published : Option JsDate := none
  images : Option (List String) := none
  body : Option String := none
  source : Option String := none
  tags : Option (List String) := none
  edited : Option Bool := none
deriving DecidableEq, Repr

/-- `StorySchema.safeParse` (zod): succeeds exactly when every required
field (`headline`, `summary`, `link`, `published`, `date_added`, `source`)
is present; optional fields pass through. -/
def safeParseStory (r : RawStory) : Option Story := do
  let headline ← r.headline
  let summary ← r.summary
  let link ← r.link
  let published ← r.published
  let date_added ← r.date_added
  let source ← r.source
  some { headline := headline, summary := summary, link := link,
         published := published, date_added := date_added,
         date_published := r.date_published, images := r.images,
         body := r.body, source := source, tags := r.tags,
         edited := r.edited }

/-- A `Story` value as it sits in storage (every schema field present). -/
def Story.toRaw (s : Story) : RawStory :=
  { headline := some s.headline, summary := some s.summary,
    link := some s.link, published := some s.published,
    date_added := some s.date_added, date_published := s.date_published,
    images := s.images, body := s.body, source := some s.source,
    tags := s.tags, edited := s.edited }

/-- Pointwise update of a string-keyed map. -/
def upd {α : Type} (f : String → Option α) (k : String) (v : α) :
    String → Option α :=
  fun q => if q = k then some v else f q

/-- Pointwise update of a day-keyed map. -/
def updN {α : Type} (f : Nat → Option α) (k : Nat) (v : α) :
    Nat → Option α :=
  fun q => if q = k then some v else f q

/-- The slice of the key-value backend the Story Store uses (all under the
`stories` namespace).  `stories` holds the `story:{id}` records, `dates`
the `date:{YYYY-MM-DD}` id lists (keyed here by the day), `published` and
`unpublished` the two status id lists, and `linkToId` the
`link_to_id:{link}` map.  `none` is a key the backend reports as null. -/
structure KV where
  stories : String → Option RawStory := fun _ => none
  dates : Nat → Option (List String) := fun _ => none
  published : Option (List String) := none
  unpublished : Option (List String) := none
  linkToId : String → Option String := fun _ => none

def emptyKV : KV := {}

/-- `addStory` (stories.ts:75).  `id` stands for the value `generateId()`
returned.  Stores the record, pushes the id onto the date index for
`date_added`'s day and onto the unpublished index, then points the link
index at the new id.  No duplicate check is performed and no error path
exists. -/
def addStory (kv : KV) (id : String) (story : Story) : KV :=
  let day := story.date_added.day
  let kv1 : KV := { kv with stories := upd kv.stories id story.toRaw }
  let kv2 : KV :=
    { kv1 with dates := updN kv1.dates day (((kv1.dates day).getD []) ++ [id]) }
  let kv3 : KV :=
    { kv2 with unpublished := some ((kv2.unpublished.getD []) ++ [id]) }
  { kv3 with linkToId := upd kv3.linkToId story.link id }

/-- `getStory` (stories.ts:108): link index, then record, then schema
validation; any failure yields null.  The `id = ""` test mirrors the JS
falsy test `if (!id)` on the id string. -/
def getStory (kv : KV) (link : String) : Option Story :=
  match kv.linkToId link with
  | none => none
  | some id =>
    if id = "" then none
    else
      match kv.stories id with
      | none => none
      | some data => safeParseStory data

/-- `exists` (stories.ts:241): true exactly when the link index has an
entry (`id !== null`).  Renamed: `exists` is reserved in Lean. -/
def existsStory (kv : KV) (link : String) : Bool :=
  (kv.linkToId link).isSome

/-- `markAsPublished` (stories.ts:131).  `now` is `new Date()` at call
time.  Returns the state unchanged when the link or the record is missing;
otherwise sets `published` and `date_published` on the raw record (no
schema validation and no already-published check), filters the id out of
the unpublished list when that list exists, and appends the id to the
published list. -/
def markAsPublished (kv : KV) (link : String) (now : JsDate) : KV :=
  match kv.linkToId link with
  | none => kv
  | some id =>
    if id = "" then kv
    else
      match kv.stories id with
      | none => kv
      | some data =>
        let story : RawStory :=
          { data with published := some true, date_published := some now }
        let kv1 : KV := { kv with stories := upd kv.stories id story }
        let kv2 : KV :=
          match kv1.unpublished with
          | some l =>
            { kv1 with unpublished := some (l.filter (fun item => item ≠ id)) }
          | none => kv1
        { kv2 with published := some ((kv2.published.getD []) ++ [id]) }

/-- `getStoriesByIds` (stories.ts:174): the for-loop accumulates, in
order, each id's record that is present and passes schema validation. -/
def getStoriesByIds (kv : KV) (ids : List String) : List Story :=
  if ids.length = 0 then []
  else
    ids.foldl
      (fun acc id =>
        match kv.stories id with
        | none => acc
        | some data =>
          match safeParseStory data with
          | some parsed => acc ++ [parsed]
          | none => acc)
      []

/-- `updateStory` (stories.ts:341).  Returns the new state paired with the
error message thrown, if any; the throw happens before any write, so on
error the state component is the input state. -/
def updateStory (kv : KV) (story : Story) : KV × Option String :=
  match kv.linkToId story.link with
  | none => (kv, some ("No story found with link: " ++ story.link))
  | some id =>
    if id = "" then (kv, some ("No story found with link: " ++ story.link))
    else ({ kv with stories := upd kv.stories id story.toRaw }, none)

/-- The body of `getDatesInRange`'s while loop (stories.ts:60): while
`currentDate <= endDate`, push the formatted day and advance one calendar
day (`setDate` keeps the time of day).  `fuel` dominates the number of
iterations. -/
def datesLoop : Nat → JsDate → JsDate → List Nat
  | 0, _, _ => []
  | fuel + 1, cur, endD =>
    if cur.ble endD then
      cur.day :: datesLoop fuel { cur with day := cur.day + 1 } endD
    else []

/-- `getDatesInRange` (stories.ts:60): the list of formatted days from
`startDate` up to `endDate`.  The fuel `endDate.day + 1 - startDate.day`
is one more than the number of day steps the loop can take. -/
def getDatesInRange (startDate endDate : JsDate) : List Nat :=
  datesLoop (endDate.day + 1 - startDate.day) startDate endDate

/-- The options object of `getStoriesByDateRange` (stories.ts:257). -/
structure QueryOptions where
  publishedOnly : Bool := false
  unpublishedOnly : Bool := false
  limit : Option Nat := none
deriving DecidableEq, Repr

/-- `[...new Set(allIds)]`: deduplication keeping first occurrences. -/
def jsSetDedup (l : List String) : List String :=
  l.foldl (fun acc a => if a ∈ acc then acc else acc ++ [a]) []

/-- The sort key of `getStoriesByDateRange`'s final sort (stories.ts:306):
`date_published` when filtering published and present, else `date_added`. -/
def sortKey (opts : QueryOptions) (s : Story) : JsDate :=
  if opts.publishedOnly then
    match s.date_published with
    | some d => d
    | none => s.date_added
  else s.date_added

/-- Insert into a list sorted newest-first by `key`. -/
def insertDesc (key : Story → JsDate) (a : Story) : List Story → List Story
  | [] => [a]
  | b :: bs =>
    if JsDate.ble (key b) (key a) then a :: b :: bs
    else b :: insertDesc key a bs

/-- `Array.prototype.sort` with the newest-first comparator
`(a, b) => time(b) - time(a)`, modelled as an insertion sort; the
properties proved below depend only on the result being a permutation. -/
def sortDesc (key : Story → JsDate) : List Story → List Story
  | [] => []
  | a :: as => insertDesc key a (sortDesc key as)

/-- `getStoriesByDateRange` (stories.ts:253): union the per-day indexes
over the inclusive day range, deduplicate ids, optionally intersect with
the published/unpublished index (returning `[]` outright when that index
key is null), apply a positive `limit`, fetch-and-validate the records,
and sort newest-first. -/
def getStoriesByDateRange (kv : KV) (startDate endDate : JsDate)
    (opts : QueryOptions) : List Story :=
  let dates := getDatesInRange startDate endDate
  let allIds := dates.foldl (fun acc day => acc ++ ((kv.dates day).getD [])) []
  let uniqueIds := jsSetDedup allIds
  let filtered : Option (List String) :=
    if opts.publishedOnly || opts.unpublishedOnly then
      match (if opts.publishedOnly then kv.published else kv.unpublished) with
      | some statusIds => some (uniqueIds.filter (fun id => statusIds.contains id))
      | none => none
    else some uniqueIds
  match filtered with
  | none => []
  | some filteredIds =>
    let limitedIds :=
      match opts.limit with
      | some n => if 0 < n then filteredIds.take n else filteredIds
      | none => filteredIds
    sortDesc (sortKey opts) (getStoriesByIds kv limitedIds)

/-- `getPublishedStories` (stories.ts:222): the published index's records,
sorted newest-first by `date_published` falling back to `date_added`. -/
def getPublishedStories (kv : KV) : List Story :=
  match kv.published with
  | none => []
  | some ids =>
    sortDesc (fun s => s.date_published.getD s.date_added) (getStoriesByIds kv ids)

/-- The `Article` shape of `ArticleSchema` (research.ts:11). -/
structure Article where
  headline : String
  summary : String
  link : String
  source : String
  date_found : JsDate
  content : Option String := none
  images : Option (List String) := none
  date_posted : Option JsDate := none
  body : Option String := none
deriving DecidableEq, Repr

/-- Output of the relevance classifier (FilterAgent's `RelevanceSchema`). -/
structure RelevanceCheck where
  isRelevant : Bool
  confidence : ℚ
  reason : String
deriving DecidableEq, Repr

/-- Raw output of the similarity classifier call in `isStorySimilar`. -/
structure SimilarityRaw where
  isSimilar : Bool
  confidence : ℚ
  similarToIndex : Option Nat := none
  reason : String
deriving DecidableEq, Repr

/-- Value returned by `isStorySimilar`. -/
structure SimilarityCheck where
  isSimilar : Bool
  confidence : ℚ
  similarTo : Option String := none
deriving DecidableEq, Repr

/-- `isStorySimilar` (FilterAgent): with an empty published corpus it
returns `{ isSimilar: false, confidence: 1 }` before the classifier call
is ever built, so the result cannot depend on `cls`, which stands for the
outcome of the `generateObject` call (the article itself only feeds the
prompt).  Otherwise the classifier's outcome is mapped onto the result;
`similarToIndex` is used through the JS truthiness test (0 and undefined
both yield no `similarTo`). -/
def isStorySimilar (article : Article) (publishedStories : List Story)
    (cls : Except String SimilarityRaw) : Except String SimilarityCheck :=
  if publishedStories.length = 0 then
    .ok { isSimilar := false, confidence := 1, similarTo := none }
  else
    cls.map (fun o =>
      { isSimilar := o.isSimilar, confidence := o.confidence,
        similarTo :=
          match o.similarToIndex with
          | some n =>
            if n ≠ 0 then (publishedStories.get? (n - 1)).map Story.headline
            else none
          | none => none })

/-- The Story record the FilterAgent constructs for an accepted article
(`{...article, published: false, edited: false, date_added: now}`). -/
def articleToStoryData (a : Article) (now : JsDate) : Story :=
  { headline := a.headline, summary := a.summary, link := a.link,
    published := false, date_added := now, date_published := none,
    images := a.images, body := a.body, source := a.source,
    tags := none, edited := some false }

/-- The FilterAgent's per-article for-loop (FilterAgent handler).
`relevanceOf` and `similarityOf` stand for the outcomes of the two
classifier calls on the article; `genId i` is the `generateId()` value and
`nowAt i` the `new Date()` taken at iteration `i`.  An article is skipped
when it already exists, when `!isRelevant || confidence < 0.6`, or when
`isSimilar && confidence > 0.6`; otherwise it is stored via `addStory` and
the re-fetched record, when found, is accumulated.  A classifier error is
not caught anywhere inside the loop, so it propagates immediately. -/
def filterLoop (relevanceOf : Article → Except String RelevanceCheck)
    (similarityOf : Article → Except String SimilarityRaw)
    (genId : Nat → String) (nowAt : Nat → JsDate)
    (publishedStories : List Story) :
    List Article → Nat → KV → List Story → Except String (KV × List Story)
  | [], _, kv, acc => .ok (kv, acc)
  | article :: rest, i, kv, acc =>
    if existsStory kv article.link then
      filterLoop relevanceOf similarityOf genId nowAt publishedStories
        rest (i + 1) kv acc
    else
      match relevanceOf article with
      | .error e => .error e
      | .ok relevance =>
        if !relevance.isRelevant || relevance.confidence < 0.6 then
          filterLoop relevanceOf similarityOf genId nowAt publishedStories
            rest (i + 1) kv acc
        else
          match isStorySimilar article publishedStories (similarityOf article) with
          | .error e => .error e
          | .ok similarity =>
            if similarity.isSimilar && similarity.confidence > 0.6 then
              filterLoop relevanceOf similarityOf genId nowAt publishedStories
                rest (i + 1) kv acc
            else
              let storyData := articleToStoryData article (nowAt i)
              let kv1 := addStory kv (genId i) storyData
              let acc1 :=
                match getStory kv1 storyData.link with
                | some completeStory => acc ++ [completeStory]
                | none => acc
              filterLoop relevanceOf similarityOf genId nowAt publishedStories
                rest (i + 1) kv1 acc1

/-- `FilterAgentHandler` (FilterAgent): an empty batch returns an empty
result; otherwise the published corpus is fetched once and the loop runs.
The handler's only try/catch wraps the whole body and rethrows after
logging, so a classifier error inside the loop is the handler's result. -/
def FilterAgentHandler (relevanceOf : Article → Except String RelevanceCheck)
    (similarityOf : Article → Except String SimilarityRaw)
    (genId : Nat → String) (nowAt : Nat → JsDate)
    (articles : List Article) (kv : KV) : Except String (KV × List Story) :=
  if articles.length = 0 then .ok (kv, [])
  else
    filterLoop relevanceOf similarityOf genId nowAt
      (getPublishedStories kv) articles 0 kv []

/-- A segment of a podcast transcript (podcast.ts `PodcastTranscriptSchema`). -/
structure PodcastSegment where
  headline : String
  content : String
  transition : Option String := none
deriving DecidableEq, Repr

/-- The denormalized story snapshot embedded in a transcript. -/
structure PodcastStorySnap where
  headline : String
  summary : String
  link : String
  date_published : JsDate
deriving DecidableEq, Repr

/-- `PodcastTranscript` (podcast.ts:12). -/
structure PodcastTranscript where
  intro : String
  segments : List PodcastSegment
  outro : String
  stories : Option (List PodcastStorySnap) := none
  date_created : JsDate
  audio_url : Option String := none
deriving DecidableEq, Repr

/-- `PodcastTranscriptInput` (podcast.ts:38): what the generation call
produces, before the store adds the snapshot and creation date. -/
structure PodcastTranscriptInput where
  intro : String
  segments : List PodcastSegment
  outro : String
  audio_url : Option String := none
deriving DecidableEq, Repr

/-- The `podcast` namespace of the key-value backend: one transcript per
`YYYY-MM-DD` key (keyed here by the day number).  Records are written only
by `save`, so they are schema-valid by construction and `getByDate`'s zod
validation is the identity on them. -/
structure PodcastStore where
  transcripts : Nat → Option PodcastTranscript := fun _ => none

def emptyPodcastStore : PodcastStore := {}

/-- The record `save` builds (podcast.ts:67): the input plus a snapshot of
the given stories (`date_published`, when absent, defaults to the current
time) and `date_created = now`. -/
def mkPodcastData (now : JsDate) (transcript : PodcastTranscriptInput)
    (sts : List Story) : PodcastTranscript :=
  { intro := transcript.intro, segments := transcript.segments,
    outro := transcript.outro, audio_url := transcript.audio_url,
    stories := some (sts.map (fun story =>
      { headline := story.headline, summary := story.summary,
        link := story.link,
        date_published := story.date_published.getD now })),
    date_created := now }

/-- `save` (podcast.ts:67): writes the built record under
`getKey(new Date())`, i.e. under the CURRENT day's key, regardless of any
date the caller was invoked for, and returns the record. -/
def podcastSave (ps : PodcastStore) (now : JsDate)
    (transcript : PodcastTranscriptInput) (sts : List Story) :
    PodcastStore × PodcastTranscript :=
  let podcastData := mkPodcastData now transcript sts
  ({ transcripts := updN ps.transcripts now.day podcastData }, podcastData)

/-- `getByDate` (podcast.ts:93): the record stored under the date's day
key, if any. -/
def podcastGetByDate (ps : PodcastStore) (date : JsDate) :
    Option PodcastTranscript :=
  ps.transcripts date.day

/-- The `PodcastEditorAgentHandler` (PodcastEditor/index.ts:92), from the
point where the published stories are in hand: with no stories it bails
out with no transcript; with an existing transcript for `endDate` (the
requested date, defaulting to `today` when the request has no date range)
and `override` false it returns that transcript without persisting
anything; otherwise it generates (outcome `gen`) and saves — and `save`
keys by `today`, the current date, not by `endDate`. -/
def PodcastEditorAgentHandler (ps : PodcastStore)
    (publishedStories : List Story) (endDate today : JsDate)
    (override : Bool) (gen : PodcastTranscriptInput) :
    PodcastStore × Option PodcastTranscript :=
  if publishedStories.length = 0 then (ps, none)
  else
    match podcastGetByDate ps endDate, override with
    | some existingTranscript, false => (ps, some existingTranscript)
    | _, _ =>
      let saved := podcastSave ps today gen publishedStories
      (saved.1, some saved.2)

/-! Concrete inputs used by counterexamples and witnesses. -/

/-- First story added under link `L` (C1 scenario). -/
def c1s1 : Story :=
  { headline := "h1", summary := "s1", link := "L", published := false,
    date_added := ⟨3, 0⟩, source := "srcA" }

/-- Second story carrying the same link `L` (C1 scenario). -/
def c1s2 : Story :=
  { headline := "h2", summary := "s2", link := "L", published := false,
    date_added := ⟨3, 0⟩, source := "srcB" }

def c1kv1 : KV := addStory emptyKV "a" c1s1

def c1kv2 : KV := addStory c1kv1 "b" c1s2

/-- An edited, not yet published story (C2 scenario). -/
def c2s : Story :=
  { headline := "h", summary := "s", link := "L2", published := false,
    date_added := ⟨3, 1⟩, source := "src", edited := some true }

def c2kv1 : KV := addStory emptyKV "a" c2s

def c2kv2 : KV := markAsPublished c2kv1 "L2" ⟨4, 2⟩

def c2kv3 : KV := (updateStory c2kv2 { c2s with edited := some false }).1

/-- A story to publish twice (C3 scenario). -/
def c3s : Story :=
  { headline := "h", summary := "s", link := "L3", published := false,
    date_added := ⟨3, 0⟩, source := "src" }

def c3kv1 : KV := addStory emptyKV "a" c3s

def c3kv2 : KV := markAsPublished c3kv1 "L3" ⟨5, 0⟩

def c3kv3 : KV := markAsPublished c3kv2 "L3" ⟨6, 0⟩

/-- Batch article whose relevance classifier call fails (C4 scenario). -/
def c4a1 : Article :=
  { headline := "A1", summary := "s1", link := "l1", source := "x",
    date_found := ⟨1, 0⟩ }

/-- Batch article after the failing one (C4 scenario). -/
def c4a2 : Article :=
  { headline := "A2", summary := "s2", link := "l2", source := "x",
    date_found := ⟨1, 0⟩ }

/-- Relevance classifier outcome: network failure on `l1`, success else. -/
def c4rel : Article → Except String RelevanceCheck := fun a =>
  if a.link = "l1" then .error "network timeout"
  else .ok { isRelevant := true, confidence := 1, reason := "r" }

/-- Similarity classifier outcome: always a confident non-duplicate. -/
def c4sim : Article → Except String SimilarityRaw := fun _ =>
  .ok { isSimilar := false, confidence := 1, reason := "r" }

/-- A story published into the corpus for the threshold tests (C5). -/
def c5sP : Story :=
  { headline := "hp", summary := "sp", link := "LP", published := false,
    date_added := ⟨1, 0⟩, source := "src" }

/-- A store whose published corpus is non-empty, so the similarity
decision is actually consulted. -/
def c5kvP : KV := markAsPublished (addStory emptyKV "p1" c5sP) "LP" ⟨2, 0⟩

/-- A deterministic `generateId` stand-in. -/
def g1 : Nat → String := fun _ => "n1"

/-- A similarity classifier outcome for branches that never reach it. -/
def c5simAny : Article → Except String SimilarityRaw := fun _ =>
  .ok { isSimilar := true, confidence := 1, reason := "x" }

/-- The pre-existing transcript stored under day 5 (C8 scenario). -/
def c8old : PodcastTranscript :=
  { intro := "old", segments := [], outro := "o", date_created := ⟨5, 0⟩ }

def c8ps : PodcastStore := { transcripts := updN (fun _ => none) 5 c8old }

/-- A published story available to the podcast run (C8 scenario). -/
def c8story : Story :=
  { headline := "h", summary := "s", link := "L8", published := true,
    date_added := ⟨5, 0⟩, date_published := some ⟨5, 1⟩, source := "src" }

def c8gen : PodcastTranscriptInput :=
  { intro := "new", segments := [], outro := "o2" }

/-- The PodcastEditor run invoked for day 5 with override on day 7. -/
def c8run : PodcastStore × Option PodcastTranscript :=
  PodcastEditorAgentHandler c8ps [c8story] ⟨5, 0⟩ ⟨7, 0⟩ true c8gen

/-- Story used by the defensive-read witness (C9 scenario). -/
def c9s : Story :=
  { headline := "h", summary := "s", link := "L9", published := false,
    date_added := ⟨2, 0⟩, source := "src" }

def c9kv : KV := addStory emptyKV "w" c9s

/-- The published-corpus story as it reads back after publication. -/
def c5sPpub : Story :=
  { c5sP with
    published := true, date_published := some ⟨2, 0⟩ }

/-- Relevance classifier outcome: relevant with the given confidence. -/
def relAt (c : ℚ) : Article → Except String RelevanceCheck := fun _ =>
  .ok { isRelevant := true, confidence := c, reason := "r" }

/-- Similarity classifier outcome: similar with the given confidence. -/
def simAt (c : ℚ) : Article → Except String SimilarityRaw := fun _ =>
  .ok { isSimilar := true, confidence := c, reason := "s" }

/-- The raw record stored for `c2s` after it was marked published. -/
def c2raw : RawStory :=
  { c2s.toRaw with
    published := some true, date_published := some ⟨4, 2⟩ }

/-- The raw record stored for `c3s` after the first `markAsPublished`. -/
def c3raw : RawStory :=
  { c3s.toRaw with
    published := some true, date_published := some ⟨5, 0⟩ }

/-! Helper lemmas. -/

theorem safeParseStory_toRaw (s : Story) : safeParseStory s.toRaw = some s := rfl

theorem upd_self {α : Type} (f : String → Option α) (k : String) (v : α) :
    upd f k v k = some v := by
  simp [upd]

theorem upd_other {α : Type} (f : String → Option α) (k q : String) (v : α)
    (h : q ≠ k) : upd f k v q = f q := by
  simp [upd, h]

theorem updN_self {α : Type} (f : Nat → Option α) (k : Nat) (v : α) :
    updN f k v k = some v := by
  simp [updN]

theorem updN_other {α : Type} (f : Nat → Option α) (k q : Nat) (v : α)
    (h : q ≠ k) : updN f k v q = f q := by
  simp [updN, h]

theorem getStoriesByIds_foldl (kv : KV) (ids : List String) (acc : List Story) :
    ids.foldl
      (fun acc id =>
        match kv.stories id with
        | none => acc
        | some data =>
          match safeParseStory data with
          | some parsed => acc ++ [parsed]
          | none => acc)
      acc
    = acc ++ ids.filterMap (fun id => (kv.stories id).bind safeParseStory) := by
  induction ids generalizing acc with
  | nil => simp
  | cons id rest ih =>
    simp only [List.foldl_cons, List.filterMap_cons]
    cases h : kv.stories id with
    | none => simp [h, ih]
    | some data =>
      cases hp : safeParseStory data with
      | none => simp [h, hp, ih]
      | some parsed => simp [h, hp, ih acc, ih (acc ++ [parsed])]

theorem getStoriesByIds_eq_filterMap (kv : KV) (ids : List String) :
    getStoriesByIds kv ids
      = ids.filterMap (fun id => (kv.stories id).bind safeParseStory) := by
  unfold getStoriesByIds
  rcases ids with _ | ⟨id, rest⟩
  · simp
  · simp only [List.length, if_neg (Nat.succ_ne_zero _)]
    simpa using getStoriesByIds_foldl kv (id :: rest) []

theorem mem_insertDesc (key : Story → JsDate) (a s : Story) (l : List Story) :
    s ∈ insertDesc key a l ↔ s = a ∨ s ∈ l := by
  induction l with
  | nil => simp [insertDesc]
  | cons b bs ih =>
    by_cases h : JsDate.ble (key b) (key a)
    · simp [insertDesc, h]
    · simp [insertDesc, h, ih]
      tauto

theorem mem_sortDesc (key : Story → JsDate) (s : Story) (l : List Story) :
    s ∈ sortDesc key l ↔ s ∈ l := by
  induction l with
  | nil => simp [sortDesc]
  | cons a as ih =>
    simp [sortDesc, mem_insertDesc, ih]

theorem mem_jsSetDedup_foldl (l acc : List String) (a : String) :
    a ∈ l.foldl (fun acc x => if x ∈ acc then acc else acc ++ [x]) acc
      ↔ a ∈ acc ∨ a ∈ l := by
  induction l generalizing acc with
  | nil => simp
  | cons x xs ih =>
    by_cases hx : x ∈ acc
    · simp only [List.foldl_cons, if_pos hx, ih]
      constructor
      · rintro (h | h)
        · exact Or.inl h
        · exact Or.inr (List.mem_cons_of_mem _ h)
      · rintro (h | h)
        · exact Or.inl h
        · rcases List.mem_cons.mp h with rfl | h
          · exact Or.inl hx
          · exact Or.inr h
    · simp only [List.foldl_cons, if_neg hx, ih]
      simp [List.mem_append, List.mem_cons]
      tauto

theorem mem_jsSetDedup (l : List String) (a : String) :
    a ∈ jsSetDedup l ↔ a ∈ l := by
  simpa using mem_jsSetDedup_foldl l [] a

theorem datesLoop_lower (fuel : Nat) (cur endD : JsDate) (d : Nat)
    (h : d ∈ datesLoop fuel cur endD) : cur.day ≤ d := by
  induction fuel generalizing cur with
  | zero => simp [datesLoop] at h
  | succ n ih =>
    simp only [datesLoop] at h
    by_cases hc : cur.ble endD
    · rw [if_pos hc] at h
      rcases List.mem_cons.mp h with rfl | h
      · exact Nat.le_refl _
      · exact Nat.le_of_succ_le (ih _ h)
    · rw [if_neg hc] at h
      simp at h

theorem getDatesInRange_self (D t : Nat) :
    getDatesInRange ⟨D, t⟩ ⟨D, t⟩ = [D] := by
  unfold getDatesInRange
  have h1 : D + 1 - D = 1 := by omega
  rw [h1]
  simp [datesLoop, JsDate.ble, Nat.blt, Nat.ble_eq]

theorem allIds_foldl_nil (g : Nat → List String) (days : List Nat)
    (acc : List String) (h : ∀ d ∈ days, g d = []) :
    days.foldl (fun acc day => acc ++ g day) acc = acc := by
  induction days generalizing acc with
  | nil => simp
  | cons d ds ih =>
    simp only [List.foldl_cons, h d (List.mem_cons_self d ds), List.append_nil]
    exact ih _ (fun x hx => h x (List.mem_cons_of_mem _ hx))

/-! Claim theorems. -/

/-- C1 counterexample: after two `addStory` calls with the same link `L`,
two Story records coexist (one per id), the second call did not fail, and
the link index was repointed from the first id to the second — so neither
"at most one Story record per distinct link" nor "a second addStory fails
and leaves the indexes unchanged" holds of the code. -/
theorem addStory_duplicate_counterexample :
    c1s1.link = c1s2.link ∧
    (c1kv2.stories "a").bind safeParseStory = some c1s1 ∧
    (c1kv2.stories "b").bind safeParseStory = some c1s2 ∧
    c1kv1.linkToId "L" = some "a" ∧
    c1kv2.linkToId "L" = some "b" := by decide

/-- C1 amended: `addStory` performs no duplicate check and has no failure
path.  A second `addStory` with the link of an existing Story succeeds,
stores a second record under the new id, appends the new id to the
unpublished index, and repoints the link index to the new id, while the
first record stays stored under its old id. -/
theorem addStory_no_duplicate_check (kv : KV) (id1 id2 : String)
    (s1 s2 : Story) (hne : id2 ≠ id1) (hlink : s2.link = s1.link) :
    ((addStory (addStory kv id1 s1) id2 s2).stories id1 = some s1.toRaw) ∧
    ((addStory (addStory kv id1 s1) id2 s2).stories id2 = some s2.toRaw) ∧
    ((addStory (addStory kv id1 s1) id2 s2).linkToId s1.link = some id2) ∧
    ((addStory (addStory kv id1 s1) id2 s2).unpublished
        = some (((kv.unpublished.getD []) ++ [id1]) ++ [id2])) := by
  refine ⟨?_, ?_, ?_, ?_⟩ <;>
    simp [addStory, upd, hne, Ne.symm hne, hlink]

/-- C1 amended witness: the general statement applied to the concrete
duplicate-link scenario. -/
theorem addStory_no_duplicate_check_witness :
    ((addStory (addStory emptyKV "a" c1s1) "b" c1s2).stories "a"
        = some c1s1.toRaw) ∧
    ((addStory (addStory emptyKV "a" c1s1) "b" c1s2).stories "b"
        = some c1s2.toRaw) ∧
    ((addStory (addStory emptyKV "a" c1s1) "b" c1s2).linkToId c1s1.link
        = some "b") ∧
    ((addStory (addStory emptyKV "a" c1s1) "b" c1s2).unpublished
        = some (((emptyKV.unpublished.getD []) ++ ["a"]) ++ ["b"])) :=
  addStory_no_duplicate_check emptyKV "a" "b" c1s1 c1s2 (by decide) (by decide)

/-- C2 counterexample: a story that is published (flag true) and edited
(flag true) in storage is overwritten by `updateStory` with a record whose
`published` and `edited` are false again — the stored flags regress, so
status is not monotonic across the store operations. -/
theorem status_monotonic_counterexample :
    (c2kv2.stories "a").map RawStory.published = some (some true) ∧
    (c2kv2.stories "a").map RawStory.edited = some (some true) ∧
    (c2kv3.stories "a").map RawStory.published = some (some false) ∧
    (c2kv3.stories "a").map RawStory.edited = some (some false) := by decide

/-- C2 amended: `markAsPublished` never regresses the flags — it leaves
`edited` untouched and only ever sets `published` to true — and `addStory`
leaves every other id's record alone; but `updateStory` overwrites the
record wholesale with the caller-supplied story, so monotonicity holds
only for sequences whose `updateStory` arguments do not regress the
flags. -/
theorem markAsPublished_flag_monotonic (kv : KV) (link : String)
    (now : JsDate) (id : String) (raw : RawStory)
    (hraw : kv.stories id = some raw) :
    (∃ raw', (markAsPublished kv link now).stories id = some raw' ∧
      (raw.published = some true → raw'.published = some true) ∧
      raw'.edited = raw.edited) ∧
    (∀ (kv' : KV) (idN idO : String) (s : Story), idO ≠ idN →
      (addStory kv' idN s).stories idO = kv'.stories idO) := by
  constructor
  · cases h : kv.linkToId link with
    | none =>
      refine ⟨raw, ?_, fun hp => hp, rfl⟩
      simp [markAsPublished, h, hraw]
    | some i =>
      by_cases hi : i = ""
      · refine ⟨raw, ?_, fun hp => hp, rfl⟩
        simp [markAsPublished, h, hi, hraw]
      · cases hd : kv.stories i with
        | none =>
          refine ⟨raw, ?_, fun hp => hp, rfl⟩
          simp [markAsPublished, h, hi, hd, hraw]
        | some data =>
          by_cases hii : id = i
          · subst hii
            rw [hraw] at hd
            cases hd
            refine ⟨{ raw with
              published := some true, date_published := some now },
              ?_, fun _ => rfl, rfl⟩
            cases hu : kv.unpublished <;>
              simp [markAsPublished, h, hi, hraw, hu, upd]
          · refine ⟨raw, ?_, fun hp => hp, rfl⟩
            cases hu : kv.unpublished <;>
              simp [markAsPublished, h, hi, hd, hu, upd, hii, hraw]
  · intro kv' idN idO s hne
    simp [addStory, upd, hne]

/-- C2 amended witness: the flag-preservation statement applied to the
concrete published-and-edited record. -/
theorem markAsPublished_flag_monotonic_witness :
    (∃ raw', (markAsPublished c2kv2 "L2" ⟨9, 9⟩).stories "a" = some raw' ∧
      (c2raw.published = some true → raw'.published = some true) ∧
      raw'.edited = c2raw.edited) ∧
    (∀ (kv' : KV) (idN idO : String) (s : Story), idO ≠ idN →
      (addStory kv' idN s).stories idO = kv'.stories idO) :=
  markAsPublished_flag_monotonic c2kv2 "L2" ⟨9, 9⟩ "a" c2raw (by decide)

/-- C3 counterexample: the story under link `L3` is already published
after the first `markAsPublished` (at time day 5), yet the second call (at
day 6) changes `date_published` to the new time and appends the id to the
published index a second time — not a no-op, so publication is not
idempotent. -/
theorem markAsPublished_not_idempotent_counterexample :
    (c3kv2.stories "a").map RawStory.published = some (some true) ∧
    (c3kv2.stories "a").map RawStory.date_published = some (some ⟨5, 0⟩) ∧
    (c3kv3.stories "a").map RawStory.date_published = some (some ⟨6, 0⟩) ∧
    c3kv2.published = some ["a"] ∧
    c3kv3.published = some ["a", "a"] := by decide

/-- C3 amended: `markAsPublished` performs no already-published check.
Whenever the link resolves to a stored record it sets `published = true`,
overwrites `date_published` with the current time, and appends the id to
the published index (again, duplicating the entry on a repeat call); it is
a no-op only when the link has no mapping. -/
theorem markAsPublished_republishes (kv : KV) (link : String) (now : JsDate)
    (id : String) (raw : RawStory) (hid : kv.linkToId link = some id)
    (hne : id ≠ "") (hraw : kv.stories id = some raw) :
    ((markAsPublished kv link now).stories id
        = some { raw with
                 published := some true, date_published := some now }) ∧
    ((markAsPublished kv link now).published
        = some ((kv.published.getD []) ++ [id])) ∧
    (∀ l, kv.linkToId l = none → markAsPublished kv l now = kv) := by
  refine ⟨?_, ?_, ?_⟩
  · cases hu : kv.unpublished <;>
      simp [markAsPublished, hid, hne, hraw, hu, upd]
  · cases hu : kv.unpublished <;>
      simp [markAsPublished, hid, hne, hraw, hu]
  · intro l hl
    simp [markAsPublished, hl]

/-- C3 amended witness: the general statement applied to the concrete
already-published story, showing the second call's effect. -/
theorem markAsPublished_republishes_witness :
    ((markAsPublished c3kv2 "L3" ⟨6, 0⟩).stories "a"
        = some { c3raw with
                 published := some true, date_published := some ⟨6, 0⟩ }) ∧
    ((markAsPublished c3kv2 "L3" ⟨6, 0⟩).published
        = some ((c3kv2.published.getD []) ++ ["a"])) ∧
    (∀ l, c3kv2.linkToId l = none → markAsPublished c3kv2 l ⟨6, 0⟩ = c3kv2) :=
  markAsPublished_republishes c3kv2 "L3" ⟨6, 0⟩ "a" c3raw
    (by decide) (by decide) (by decide)

/-- C4 counterexample: in a two-article batch where the relevance
classifier call fails for the first article, the FilterAgent's result is
that error — the second article is never processed and no accumulated
result is returned, so the failure is not contained to the one article. -/
theorem filter_abort_counterexample :
    FilterAgentHandler c4rel c4sim g1 (fun _ => ⟨2, 0⟩) [c4a1, c4a2] emptyKV
      = .error "network timeout" := by rfl

/-- C4 amended: the FilterAgent has no per-article error handling — its
only try/catch wraps the whole handler and rethrows — so a classifier
failure on any article whose existence check passes aborts the whole
batch: the error becomes the handler's result and no accumulated result is
produced for the articles that succeeded. -/
theorem filter_classifier_error_aborts_batch
    (relevanceOf : Article → Except String RelevanceCheck)
    (similarityOf : Article → Except String SimilarityRaw)
    (genId : Nat → String) (nowAt : Nat → JsDate) (kv : KV)
    (a : Article) (rest : List Article) (e : String)
    (hex : existsStory kv a.link = false) (herr : relevanceOf a = .error e) :
    FilterAgentHandler relevanceOf similarityOf genId nowAt (a :: rest) kv
      = .error e := by
  unfold FilterAgentHandler
  rw [if_neg (by simp)]
  unfold filterLoop
  rw [hex, herr]
  simp

/-- C4 amended witness: the general abort statement applied to the
concrete failing batch. -/
theorem filter_classifier_error_aborts_batch_witness :
    FilterAgentHandler c4rel c4sim g1 (fun _ => ⟨2, 0⟩) [c4a1, c4a2] emptyKV
      = .error "network timeout" :=
  filter_classifier_error_aborts_batch c4rel c4sim g1 (fun _ => ⟨2, 0⟩)
    emptyKV c4a1 [c4a2] "network timeout" (by decide) (by rfl)

/-- C10: with an empty published corpus, `isStorySimilar` returns
`isSimilar = false` with confidence 1, whatever the classifier call would
have produced — the classifier is never consulted, so no article can be
rejected as a duplicate against an empty corpus. -/
theorem isStorySimilar_empty_corpus (article : Article)
    (cls : Except String SimilarityRaw) :
    isStorySimilar article [] cls
      = .ok { isSimilar := false, confidence := 1, similarTo := none } := rfl

/-- C5: filter threshold boundaries, on a store whose published corpus is
non-empty (so the similarity verdict is genuinely consulted) and for any
article the store does not already hold.  A relevance verdict of
confidence exactly 0.6 together with a similar-verdict of confidence
exactly 0.6 is accepted — neither boundary rejects — and the article is
stored; relevance confidence 0.59 is rejected; a similar verdict of
confidence 0.61 is rejected as duplicate. -/
theorem filter_threshold_boundaries (a : Article) (nowAt : Nat → JsDate)
    (h : a.link ≠ "LP") :
    (FilterAgentHandler (relAt 0.6) (simAt 0.6) g1 nowAt [a] c5kvP
        = .ok (addStory c5kvP "n1" (articleToStoryData a (nowAt 0)),
               [articleToStoryData a (nowAt 0)])) ∧
    (FilterAgentHandler (relAt 0.59) c5simAny g1 nowAt [a] c5kvP
        = .ok (c5kvP, [])) ∧
    (FilterAgentHandler (relAt 0.6) (simAt 0.61) g1 nowAt [a] c5kvP
        = .ok (c5kvP, [])) := by
  have hlink : ∀ l : String, c5kvP.linkToId l
      = (if l = "LP" then some "p1" else none) := fun l => rfl
  have hex : existsStory c5kvP a.link = false := by
    simp [existsStory, hlink, h]
  have hcorp : getPublishedStories c5kvP = [c5sPpub] := by decide
  have hn1 : ("n1" : String) ≠ "" := by decide
  refine ⟨?_, ?_, ?_⟩ <;>
    · simp only [FilterAgentHandler, hcorp]
      norm_num [filterLoop, hex, relAt, simAt, c5simAny, isStorySimilar,
        Except.map, g1, getStory, addStory, upd, hn1, safeParseStory_toRaw]

/-- C5 witness: the boundary statement applied to a concrete fresh
article. -/
theorem filter_threshold_boundaries_witness :
    (FilterAgentHandler (relAt 0.6) (simAt 0.6) g1 (fun _ => ⟨2, 0⟩) [c4a2]
        c5kvP
        = .ok (addStory c5kvP "n1" (articleToStoryData c4a2 ⟨2, 0⟩),
               [articleToStoryData c4a2 ⟨2, 0⟩])) ∧
    (FilterAgentHandler (relAt 0.59) c5simAny g1 (fun _ => ⟨2, 0⟩) [c4a2]
        c5kvP
        = .ok (c5kvP, [])) ∧
    (FilterAgentHandler (relAt 0.6) (simAt 0.61) g1 (fun _ => ⟨2, 0⟩) [c4a2]
        c5kvP
        = .ok (c5kvP, [])) :=
  filter_threshold_boundaries c4a2 (fun _ => ⟨2, 0⟩) (by decide)

/-- C6: date-range completeness.  A Story added with `date_added` on day
`D` is returned by `getStoriesByDateRange(D, D)` with no status filter,
whatever the prior store state; and after adding it to an empty store,
`getStoriesByDateRange(D+1, D+5)` returns nothing — the union covers
exactly the calendar days in `[start, end]` inclusive. -/
theorem dateRange_completeness (kv : KV) (id : String) (story : Story)
    (t : Nat) :
    story ∈ getStoriesByDateRange (addStory kv id story)
      ⟨story.date_added.day, t⟩ ⟨story.date_added.day, t⟩ {} ∧
    getStoriesByDateRange (addStory emptyKV id story)
      ⟨story.date_added.day + 1, t⟩ ⟨story.date_added.day + 5, t⟩ {} = [] := by
  constructor
  · simp only [getStoriesByDateRange, getDatesInRange_self, List.foldl_cons,
      List.foldl_nil]
    simp only [QueryOptions.publishedOnly, QueryOptions.unpublishedOnly,
      QueryOptions.limit, Bool.or_self, Bool.false_eq_true, if_false]
    rw [mem_sortDesc, getStoriesByIds_eq_filterMap]
    refine List.mem_filterMap.mpr ⟨id, ?_, ?_⟩
    · rw [mem_jsSetDedup]
      simp [addStory, updN]
    · simp [addStory, upd, safeParseStory_toRaw]
  · have hdates : ∀ d ∈ getDatesInRange ⟨story.date_added.day + 1, t⟩
        ⟨story.date_added.day + 5, t⟩,
        (((addStory emptyKV id story).dates d).getD []) = [] := by
      intro d hd
      have h1 : story.date_added.day + 1 ≤ d := datesLoop_lower _ _ _ _ hd
      have hne : d ≠ story.date_added.day := by omega
      simp [addStory, updN, hne, emptyKV]
    simp only [getStoriesByDateRange]
    rw [allIds_foldl_nil _ _ _ hdates]
    simp [jsSetDedup, getStoriesByIds, sortDesc]

/-- C7: `updateStory` throws its not-found error exactly when the link
index has no entry for the story's link — the same check `exists`
performs — and when it throws, the state is returned unchanged: the throw
happens before any write.  The hypothesis excludes the unreachable corner
of an empty string stored in the link index (JS falsiness), which the
Store never writes. -/
theorem updateStory_notFound_iff (kv : KV) (story : Story)
    (h : kv.linkToId story.link ≠ some "") :
    ((updateStory kv story).2.isSome ↔ existsStory kv story.link = false) ∧
    ((updateStory kv story).2.isSome → (updateStory kv story).1 = kv) := by
  cases hl : kv.linkToId story.link with
  | none => simp [updateStory, existsStory, hl]
  | some i =>
    have hi : i ≠ "" := fun hEq => h (hEq ▸ hl)
    simp [updateStory, existsStory, hl, hi]

/-- C7 witness: on the empty store the update throws and the state is the
input state. -/
theorem updateStory_notFound_iff_witness :
    ((updateStory emptyKV c1s1).2.isSome
        ↔ existsStory emptyKV c1s1.link = false) ∧
    ((updateStory emptyKV c1s1).2.isSome
        → (updateStory emptyKV c1s1).1 = emptyKV) :=
  updateStory_notFound_iff emptyKV c1s1 (by decide)

/-- C8 counterexample: the store holds a transcript for day 5; the editor
is invoked for endDate day 5 with `override = true` while the current date
is day 7.  A new transcript is generated and returned, but it is persisted
under day 7 — day 5's stored transcript is NOT replaced — so "persists a
new transcript replacing the old one for that date key" fails. -/
theorem podcast_override_counterexample :
    (c8run.1.transcripts 5 = some c8old) ∧
    (c8run.2 = some (mkPodcastData ⟨7, 0⟩ c8gen [c8story])) ∧
    (mkPodcastData ⟨7, 0⟩ c8gen [c8story] ≠ c8old) ∧
    (c8run.1.transcripts 7 = some (mkPodcastData ⟨7, 0⟩ c8gen [c8story])) := by
  decide

/-- C8 amended: with an existing transcript for the requested date and
`override = false`, the existing transcript is returned and nothing is
persisted.  With `override = true`, a new transcript is generated,
returned, and persisted — but `save` always keys by the CURRENT date, so
the new transcript lands under the current date's key and every other
day's stored transcript (including the requested date's, when it differs
from the current date) is left unchanged; the old transcript is replaced
only when the requested date is the current date. -/
theorem podcast_override_semantics (ps : PodcastStore) (sts : List Story)
    (endDate today : JsDate) (gen : PodcastTranscriptInput)
    (ex : PodcastTranscript) (hsts : sts.length ≠ 0)
    (hex : podcastGetByDate ps endDate = some ex) :
    (PodcastEditorAgentHandler ps sts endDate today false gen
        = (ps, some ex)) ∧
    ((PodcastEditorAgentHandler ps sts endDate today true gen).1.transcripts
        today.day = some (mkPodcastData today gen sts)) ∧
    ((PodcastEditorAgentHandler ps sts endDate today true gen).2
        = some (mkPodcastData today gen sts)) ∧
    (∀ d : Nat, d ≠ today.day →
      (PodcastEditorAgentHandler ps sts endDate today true gen).1.transcripts d
        = ps.transcripts d) := by
  refine ⟨?_, ?_, ?_, ?_⟩
  · simp [PodcastEditorAgentHandler, hsts, hex]
  · simp [PodcastEditorAgentHandler, hsts, hex, podcastSave, updN]
  · simp [PodcastEditorAgentHandler, hsts, hex, podcastSave]
  · intro d hd
    simp [PodcastEditorAgentHandler, hsts, hex, podcastSave, updN, hd]

/-- C8 amended witness: the general statement applied to the concrete
day-5-versus-day-7 scenario. -/
theorem podcast_override_semantics_witness :
    (PodcastEditorAgentHandler c8ps [c8story] ⟨5, 0⟩ ⟨7, 0⟩ false c8gen
        = (c8ps, some c8old)) ∧
    ((PodcastEditorAgentHandler c8ps [c8story] ⟨5, 0⟩ ⟨7, 0⟩ true
        c8gen).1.transcripts 7 = some (mkPodcastData ⟨7, 0⟩ c8gen [c8story])) ∧
    ((PodcastEditorAgentHandler c8ps [c8story] ⟨5, 0⟩ ⟨7, 0⟩ true c8gen).2
        = some (mkPodcastData ⟨7, 0⟩ c8gen [c8story])) ∧
    (∀ d : Nat, d ≠ 7 →
      (PodcastEditorAgentHandler c8ps [c8story] ⟨5, 0⟩ ⟨7, 0⟩ true
        c8gen).1.transcripts d = c8ps.transcripts d) :=
  podcast_override_semantics c8ps [c8story] ⟨5, 0⟩ ⟨7, 0⟩ c8gen c8old
    (by decide) (by decide)

/-- C9: reads are defensive.  `getStoriesByIds` equals, for every id
list, the filter-map that keeps exactly the ids whose backing record
exists and passes schema validation — missing and unparseable records are
silently dropped, never raised; and `getStory` returns a story only when
the full chain (link index entry, backing record, schema validation)
succeeds, returning null whenever the record is missing or unparseable. -/
theorem defensive_reads (kv : KV) :
    (∀ ids : List String, getStoriesByIds kv ids
        = ids.filterMap (fun id => (kv.stories id).bind safeParseStory)) ∧
    (∀ (link : String) (s : Story), getStory kv link = some s →
      ∃ id raw, kv.linkToId link = some id ∧ kv.stories id = some raw ∧
        safeParseStory raw = some s) ∧
    (∀ (link id : String), kv.linkToId link = some id →
      (kv.stories id).bind safeParseStory = none →
      getStory kv link = none) := by
  refine ⟨getStoriesByIds_eq_filterMap kv, ?_, ?_⟩
  · intro link s hs
    unfold getStory at hs
    cases hl : kv.linkToId link with
    | none => rw [hl] at hs; exact absurd hs (by simp)
    | some i =>
      rw [hl] at hs
      dsimp only at hs
      by_cases hi : i = ""
      · rw [if_pos hi] at hs; exact absurd hs (by simp)
      · rw [if_neg hi] at hs
        cases hd : kv.stories i with
        | none => rw [hd] at hs; exact absurd hs (by simp)
        | some raw =>
          rw [hd] at hs
          exact ⟨i, raw, rfl, hd, hs⟩
  · intro link i hl hnone
    unfold getStory
    rw [hl]
    dsimp only
    by_cases hi : i = ""
    · rw [if_pos hi]
    · rw [if_neg hi]
      cases hd : kv.stories i with
      | none => rfl
      | some raw =>
        rw [hd] at hnone
        simpa using hnone

/-- C9 witness: on a store with one well-formed record, a successful
`getStory` exhibits the full chain. -/
theorem defensive_reads_witness :
    ∃ id raw, c9kv.linkToId "L9" = some id ∧ c9kv.stories id = some raw ∧
      safeParseStory raw = some c9s :=
  (defensive_reads c9kv).2.1 "L9" c9s (by decide)

end Newsroom
